import Mathlib

/-!
Shallow embedding of the Craft Catalog Query Engine of `src/craft_tool.py`
(the static tables `CRAFT_DATABASE`, `CRAFT_INSTRUCTIONS`, `CRAFT_TIPS` and
the seven core functions `_list_craft_items`, `_get_craft_details`,
`_search_crafts_by_category`, `_search_crafts_by_difficulty`,
`_get_random_craft`, `_search_crafts_by_materials`, `_estimate_craft_time`).

Strings are modelled as lists of Unicode code points (`List Nat`); the
Python string operations used by the engine (`.lower()`, `.strip()`,
substring membership `in`, and the digit-run extraction `re.findall` with
pattern backslash-d-plus) are embedded as executable functions on them.
`.lower()` is modelled on the ASCII letters, and whitespace as the ASCII
whitespace code points, which agree with Python on every string stored in
the catalog and on all ASCII input.
-/

deriving instance DecidableEq for Except

/-- Code-point string: the model of a Python `str`. -/
abbrev Str := List Nat

/-- Embed a Lean string literal as a code-point string. -/
def str (x : String) : Str := x.data.map Char.toNat

/-- ASCII whitespace, the model of the class stripped by Python `str.strip()`. -/
def isWS (n : Nat) : Bool := decide (n = 32 ∨ n = 9 ∨ n = 10 ∨ n = 11 ∨ n = 12 ∨ n = 13)

/-- Decimal digit code points, the model of the regex digit class. -/
def isDigitN (n : Nat) : Bool := decide (48 ≤ n ∧ n ≤ 57)

/-- Lower-case one code point (ASCII model of Python `str.lower()`). -/
def lowCh (n : Nat) : Nat := if 65 ≤ n ∧ n ≤ 90 then n + 32 else n

/-- Model of Python `s.lower()`. -/
def lowerS (l : Str) : Str := l.map lowCh

/-- Model of Python `s.strip()`: drop whitespace from both ends. -/
def stripS (l : Str) : Str := ((l.dropWhile isWS).reverse.dropWhile isWS).reverse

/-- `leadsWith p t`: `p` is an initial segment of `t`. -/
def leadsWith : Str → Str → Bool
  | [], _ => true
  | _ :: _, [] => false
  | p :: ps, c :: cs => p == c && leadsWith ps cs

/-- Model of Python substring membership `p in t`. -/
def containsSub (p : Str) : Str → Bool
  | [] => p.isEmpty
  | c :: rest => leadsWith p (c :: rest) || containsSub p rest

/-- Numeric value of a list of decimal-digit code points. -/
def digitsVal (l : Str) : Nat := l.foldl (fun acc n => acc * 10 + (n - 48)) 0

/-- Value of the first maximal run of decimal digits in the text, if any:
the model of `int(re.findall(r digit-run)(s)[0])` guarded by nonemptiness. -/
def firstDigitRun : Str → Option Nat
  | [] => none
  | c :: rest =>
    if isDigitN c then some (digitsVal (c :: rest.takeWhile isDigitN))
    else firstDigitRun rest

/-- `CraftItem` (pydantic model in the source). -/
structure CraftItem where
  name : Str
  description : Str
  materials : List Str
  difficulty : Str
  time_required : Str
  category : Str
deriving DecidableEq

/-- The catalog table `CRAFT_DATABASE`, an insertion-ordered association
list keyed by craft id. -/
def CRAFT_DATABASE : List (Str × CraftItem) := [
  (str ("paper_airplane"),
   { name := str ("Paper Airplane"),
     description := str ("A simple flying paper craft perfect for beginners"),
     materials := [str ("A4 paper"), str ("steady hands")],
     difficulty := str ("easy"),
     time_required := str ("5 minutes"),
     category := str ("paper_crafts") }),
  (str ("origami_crane"),
   { name := str ("Origami Crane"),
     description := str ("Traditional Japanese paper folding creating an elegant crane"),
     materials := [str ("Square origami paper")],
     difficulty := str ("medium"),
     time_required := str ("15-20 minutes"),
     category := str ("origami") }),
  (str ("friendship_bracelet"),
   { name := str ("Friendship Bracelet"),
     description := str ("Colorful woven bracelet made with embroidery thread"),
     materials := [str ("Embroidery thread (3-4 colors)"), str ("scissors"), str ("tape")],
     difficulty := str ("medium"),
     time_required := str ("30-45 minutes"),
     category := str ("jewelry") }),
  (str ("painted_rock"),
   { name := str ("Painted Rock"),
     description := str ("Decorative rock painted with creative designs"),
     materials := [str ("Smooth rock"), str ("acrylic paints"), str ("paintbrushes"), str ("sealant")],
     difficulty := str ("easy"),
     time_required := str ("1-2 hours (including drying time)"),
     category := str ("painting") }),
  (str ("macrame_plant_hanger"),
   { name := str ("Macrame Plant Hanger"),
     description := str ("Elegant plant hanger made with knotted cord"),
     materials := [str ("Macrame cord"), str ("metal ring"), str ("scissors"), str ("measuring tape")],
     difficulty := str ("hard"),
     time_required := str ("2-3 hours"),
     category := str ("home_decor") })
]

/-- Association-list lookup, the model of `key in dict` plus `dict[key]`
(and of `dict.get(key)`): keys of the Python dicts are unique. -/
def lookupTbl {β : Type} (id : Str) : List (Str × β) → Option β
  | [] => none
  | (k, v) :: rest => if k = id then some v else lookupTbl id rest

/-- The instruction table `CRAFT_INSTRUCTIONS`.  The step texts themselves
are never inspected by the Query Engine, only returned; the table is kept
in full so that `getCraftDetails` returns exactly the source's payloads. -/
def CRAFT_INSTRUCTIONS : List (Str × List Str) := [
  (str ("paper_airplane"), [
    str ("Take an 8.5 x 11 inch piece of paper"),
    str ("Fold the paper in half lengthwise, then unfold"),
    str ("Fold the top corners down to the center crease"),
    str ("Fold the angled edges down to the center crease again"),
    str ("Fold the plane in half along the center crease"),
    str ("Create wings by folding each side down to align with the bottom"),
    str ("Your paper airplane is ready to fly!")]),
  (str ("origami_crane"), [
    str ("Start with a square piece of paper, colored side down"),
    str ("Fold diagonally both ways and unfold"),
    str ("Fold horizontally and vertically, then unfold"),
    str ("Bring the three corners down to the bottom corner using creases as guides"),
    str ("Fold the top flaps into the center, repeat on back"),
    str ("Fold the top triangle down, repeat on back"),
    str ("Pull the sides apart gently and flatten to create a diamond"),
    str ("Fold the top points down to create the head and tail"),
    str ("Pull the wings apart gently while holding the body")]),
  (str ("friendship_bracelet"), [
    str ("Cut 4 strands of thread, each about 24 inches long"),
    str ("Tie all strands together with a knot, leaving 2 inches of tail"),
    str ("Tape the knot to a flat surface"),
    str ("Separate strands into pairs (A, B, C, D from left to right)"),
    str ("Take strand A over and under strand B, then pull tight"),
    str ("Repeat the knot with strand A over strand B"),
    str ("Move to strand C, repeat the double knot process"),
    str ("Continue pattern until bracelet is desired length"),
    str ("Tie off with a secure knot")]),
  (str ("painted_rock"), [
    str ("Find a smooth, clean rock"),
    str ("Wash and dry the rock thoroughly"),
    str ("Apply a base coat of paint if desired, let dry"),
    str ("Sketch your design lightly with pencil"),
    str ("Paint your design with acrylic paints"),
    str ("Allow each color to dry before adding details"),
    str ("Apply a clear sealant to protect the paint"),
    str ("Let dry completely before handling")]),
  (str ("macrame_plant_hanger"), [
    str ("Cut 8 cords, each 3 feet long"),
    str ("Fold all cords in half and attach to metal ring with lark's head knots"),
    str ("Measure 6 inches down and tie square knots with groups of 4 cords"),
    str ("Measure 4 inches down and tie another round of square knots"),
    str ("Separate each group of 4 into 2 groups of 2"),
    str ("Take 2 cords from adjacent groups and tie together 4 inches down"),
    str ("Repeat around to create the basket shape"),
    str ("Measure 8 inches down and tie all cords together with a large knot"),
    str ("Trim excess cord to desired length")])
]

/-- The tip table `CRAFT_TIPS` (three tips per id, as in the source). -/
def CRAFT_TIPS : List (Str × List Str) := [
  (str ("paper_airplane"), [
    str ("Use crisp folds for better flight performance"),
    str ("Make sure both wings are even for straight flight"),
    str ("Throw with a firm, level motion")]),
  (str ("origami_crane"), [
    str ("Use proper origami paper for best results"),
    str ("Make sharp, precise creases"),
    str ("Be patient - it takes practice to master")]),
  (str ("friendship_bracelet"), [
    str ("Keep tension consistent for even knots"),
    str ("Use a clipboard to hold your work steady"),
    str ("Choose colors that complement each other")]),
  (str ("painted_rock"), [
    str ("Prime the rock with white paint for brighter colors"),
    str ("Use small brushes for detailed work"),
    str ("Work in thin layers to avoid paint drips")]),
  (str ("macrame_plant_hanger"), [
    str ("Keep cord lengths consistent"),
    str ("Practice basic macrame knots before starting"),
    str ("Choose a pot that fits snugly in the hanger")])
]

/-- Summary record produced by `_list_craft_items`. -/
structure ItemSummary where
  id : Str
  name : Str
  description : Str
  difficulty : Str
  time_required : Str
  category : Str
deriving DecidableEq

/-- Record produced by `_search_crafts_by_category`. -/
structure CategorySummary where
  id : Str
  name : Str
  description : Str
  difficulty : Str
  time_required : Str
deriving DecidableEq

/-- Record produced by `_search_crafts_by_difficulty`. -/
structure DifficultySummary where
  id : Str
  name : Str
  description : Str
  category : Str
  time_required : Str
deriving DecidableEq

/-- Record produced by `_search_crafts_by_materials`. -/
structure MaterialsSummary where
  id : Str
  name : Str
  description : Str
  materials_needed : List Str
  difficulty : Str
  time_required : Str
deriving DecidableEq

/-- The success payload of `_get_craft_details`: the dict
`{item, instructions, tips}` (same shape as the `CraftRecipe` model). -/
structure CraftRecipe where
  item : CraftItem
  instructions : List Str
  tips : List Str
deriving DecidableEq

/-- One entry of `valid_items` in `_estimate_craft_time`. -/
structure ValidEntry where
  id : Str
  name : Str
  time : Str
deriving DecidableEq

/-- The success payload of `_estimate_craft_time`.  `estimated_total_hours`
is `round(total_minutes / 60, 2)` in the source; it is modelled as an exact
rational (see `hoursOf`). -/
structure EstimateResult where
  valid_items : List ValidEntry
  invalid_items : List Str
  estimated_total_minutes : Nat
  estimated_total_hours : ℚ
deriving DecidableEq

/-- Model of Python `round(x, 2)`: rounding to a multiple of 1/100.
Python rounds ties to even; on the values this engine produces
(`x = total_minutes / 60`, so `100 * x` has fractional part 0, 1/3 or 2/3)
ties never arise, so floor of `100 x + 1/2` is exact. -/
def round2 (x : ℚ) : ℚ := (Rat.floor (x * 100 + 1 / 2) : ℤ) / 100

/-- `estimated_total_hours` as a function of the minute total:
`round(total_time / 60, 2)`. -/
def hoursOf (t : Nat) : ℚ := round2 ((t : ℚ) / 60)

/-- `_list_craft_items`: one summary per catalog entry, in store order. -/
def listCraftItems (db : List (Str × CraftItem)) : List ItemSummary :=
  db.map fun p =>
    { id := p.1, name := p.2.name, description := p.2.description,
      difficulty := p.2.difficulty, time_required := p.2.time_required,
      category := p.2.category }

/-- `_get_craft_details`: empty id and missing id yield tagged errors,
otherwise the full recipe with instructions/tips defaulting to `[]`. -/
def getCraftDetails (db : List (Str × CraftItem)) (item_id : Str) :
    Except Str CraftRecipe :=
  if item_id = [] then .error (str ("Item ID cannot be empty"))
  else match lookupTbl item_id db with
    | none => .error (str ("Craft item '") ++ item_id ++ str ("' not found"))
    | some item =>
      .ok { item := item,
            instructions := (lookupTbl item_id CRAFT_INSTRUCTIONS).getD [],
            tips := (lookupTbl item_id CRAFT_TIPS).getD [] }

/-- `_search_crafts_by_category`: tagged error on the empty string, else
the case-insensitive exact-match filter over the store, in store order. -/
def searchCraftsByCategory (db : List (Str × CraftItem)) (category : Str) :
    Except Str (List CategorySummary) :=
  if category = [] then .error (str ("Category cannot be empty"))
  else .ok (db.filterMap fun p =>
    if lowerS p.2.category = lowerS category then
      some { id := p.1, name := p.2.name, description := p.2.description,
             difficulty := p.2.difficulty, time_required := p.2.time_required }
    else none)

/-- `_search_crafts_by_difficulty`: tagged error on the empty string or on
a value whose lower-casing is none of easy/medium/hard, else the
case-insensitive filter over the store, in store order. -/
def searchCraftsByDifficulty (db : List (Str × CraftItem)) (difficulty : Str) :
    Except Str (List DifficultySummary) :=
  if difficulty = [] then .error (str ("Difficulty cannot be empty"))
  else if ¬ (lowerS difficulty = str ("easy") ∨ lowerS difficulty = str ("medium") ∨
             lowerS difficulty = str ("hard")) then
    .error (str ("Difficulty must be 'easy', 'medium', or 'hard'"))
  else .ok (db.filterMap fun p =>
    if lowerS p.2.difficulty = lowerS difficulty then
      some { id := p.1, name := p.2.name, description := p.2.description,
             category := p.2.category, time_required := p.2.time_required }
    else none)

/-- `_get_random_craft`: `random.choice` over the key list is modelled by an
arbitrary pick index reduced modulo the key count, so every reachable
outcome corresponds to some `pick`.  Empty store yields the tagged error. -/
def getRandomCraft (db : List (Str × CraftItem)) (pick : Nat) :
    Except Str CraftRecipe :=
  if db = [] then .error (str ("No crafts available in database"))
  else getCraftDetails db ((db.map Prod.fst).getD (pick % (db.map Prod.fst).length) [])

/-- `_search_crafts_by_materials`: trims and lower-cases the requested
entries (dropping entries blank after trimming), then keeps the items for
which some requested entry is a substring of some trimmed lower-cased
stored material.  Never returns a tagged error. -/
def searchCraftsByMaterials (db : List (Str × CraftItem)) (materials : List Str) :
    List MaterialsSummary :=
  if materials = [] then []
  else
    let materials_lower := (materials.filter fun m => !(stripS m).isEmpty).map
      fun m => stripS (lowerS m)
    if materials_lower = [] then []
    else db.filterMap fun p =>
      let item_materials_lower := p.2.materials.map fun m => stripS (lowerS m)
      if materials_lower.any fun av => item_materials_lower.any fun im => containsSub av im
      then some { id := p.1, name := p.2.name, description := p.2.description,
                  materials_needed := p.2.materials, difficulty := p.2.difficulty,
                  time_required := p.2.time_required }
      else none

/-- The time-parsing step of `_estimate_craft_time` for one valid item:
lower-case the `time_required` text; if it contains "minute", the first
digit run counts as minutes; else if it contains "hour", the first digit
run times 60; else 0 (also 0 when no digit run exists). -/
def parseMinutes (time_required : Str) : Nat :=
  let t := lowerS time_required
  if containsSub (str ("minute")) t then (firstDigitRun t).getD 0
  else if containsSub (str ("hour")) t then (firstDigitRun t).getD 0 * 60
  else 0

/-- The loop of `_estimate_craft_time`: classify each id and accumulate
`(valid_items, invalid_items, total_time)` in input order. -/
def estimateLoop (db : List (Str × CraftItem)) : List Str → List ValidEntry × List Str × Nat
  | [] => ([], [], 0)
  | item_id :: rest =>
    let r := estimateLoop db rest
    match lookupTbl item_id db with
    | some item =>
      ({ id := item_id, name := item.name, time := item.time_required } :: r.1,
       r.2.1, parseMinutes item.time_required + r.2.2)
    | none => (r.1, item_id :: r.2.1, r.2.2)

/-- `_estimate_craft_time`: tagged error on an empty id list, else the
partition and the minute/hour totals. -/
def estimateCraftTime (db : List (Str × CraftItem)) (item_ids : List Str) :
    Except Str EstimateResult :=
  if item_ids = [] then .error (str ("Item IDs list cannot be empty"))
  else
    let r := estimateLoop db item_ids
    .ok { valid_items := r.1, invalid_items := r.2.1,
          estimated_total_minutes := r.2.2,
          estimated_total_hours := hoursOf r.2.2 }

/-- The spec's own aggregation rule for one `time_required` text, stated in
the claim's words (no lower-casing of the inspected text): first digit run
as minutes when the text contains "minute", else times 60 when it contains
"hour", else zero (also zero when no digit run exists).  Compared with the
source-derived `parseMinutes` on the catalog's stored texts. -/
def specMinutes (text : Str) : Nat :=
  if containsSub (str ("minute")) text then (firstDigitRun text).getD 0
  else if containsSub (str ("hour")) text then (firstDigitRun text).getD 0 * 60
  else 0

/-! ### Helper lemmas -/

lemma rat_floor_eq (q : ℚ) : Rat.floor q = ⌊q⌋ := by
  rw [Rat.floor_def', Rat.floor_def]

lemma hoursOf_eq (t : Nat) : hoursOf t = ((⌊(t : ℚ) / 60 * 100 + 1 / 2⌋ : ℤ) : ℚ) / 100 := by
  rw [hoursOf, round2, rat_floor_eq]

lemma hoursOf_twenty : hoursOf 20 = 33 / 100 := by
  rw [hoursOf_eq]
  have h : ((20 : ℕ) : ℚ) / 60 * 100 + 1 / 2 = 203 / 6 := by norm_num
  rw [h]
  have h2 : ⌊(203 / 6 : ℚ)⌋ = 33 := by
    rw [Int.floor_eq_iff]
    norm_num
  rw [h2]
  norm_num

lemma hoursOf_zero : hoursOf 0 = 0 := by
  rw [hoursOf_eq]
  norm_num

lemma lookupTbl_mem {β : Type} {id : Str} {v : β} :
    ∀ {tbl : List (Str × β)}, lookupTbl id tbl = some v → v ∈ tbl.map Prod.snd
  | [], h => by simp [lookupTbl] at h
  | (k, w) :: rest, h => by
    by_cases hk : k = id
    · simp [lookupTbl, hk] at h
      simp [h]
    · simp only [lookupTbl, if_neg hk] at h
      simpa using Or.inr (lookupTbl_mem h)

/-- The loop of `_estimate_craft_time`, characterised: valid entries are the
looked-up ids in order, invalid ids the rest in order, and the minute total
the sum of the parsed times of the valid ids. -/
lemma estimateLoop_eq (db : List (Str × CraftItem)) (ids : List Str) :
    estimateLoop db ids =
      (ids.filterMap fun j => (lookupTbl j db).map fun it =>
        { id := j, name := it.name, time := it.time_required },
       ids.filter fun j => (lookupTbl j db).isNone,
       (ids.filterMap fun j => (lookupTbl j db).map fun it =>
         parseMinutes it.time_required).sum) := by
  induction ids with
  | nil => rfl
  | cons j rest ih =>
    simp only [estimateLoop, ih]
    cases h : lookupTbl j db with
    | none => simp [h]
    | some it => simp [h]

lemma parseMinutes_eq_specMinutes :
    ∀ it ∈ CRAFT_DATABASE.map Prod.snd,
      parseMinutes it.time_required = specMinutes it.time_required := by
  decide

lemma isWS_lowCh (n : Nat) : isWS (lowCh n) = isWS n := by
  unfold lowCh
  split
  · next h =>
    unfold isWS
    simp only [decide_eq_decide]
    omega
  · rfl

lemma stripS_lowerS (l : Str) : stripS (lowerS l) = lowerS (stripS l) := by
  have hpf : (isWS ∘ lowCh) = isWS := funext isWS_lowCh
  unfold stripS lowerS
  rw [List.dropWhile_map, hpf, ← List.map_reverse, List.dropWhile_map, hpf, ← List.map_reverse]

lemma any_congr_mem {α : Type} {l : List α} {p q : α → Bool}
    (h : ∀ a ∈ l, p a = q a) : l.any p = l.any q := by
  induction l with
  | nil => rfl
  | cons a as ih =>
    simp only [List.any_cons, h a (by simp)]
    rw [ih fun b hb => h b (by simp [hb])]

lemma any_filter_map {α β : Type} (l : List α) (pb : α → Bool) (f : α → β) (q : β → Bool) :
    ((l.filter pb).map f).any q = l.any fun a => pb a && q (f a) := by
  induction l with
  | nil => rfl
  | cons a as ih => by_cases h : pb a <;> simp [h, ih]

/-- The matching rule of C3 in the claim's words: some requested entry,
whitespace-trimmed and not blank after trimming, is a case-insensitive
substring of some stored material string of the item. -/
def specMaterialMatch (materials : List Str) (item : CraftItem) : Bool :=
  materials.any fun m => !(stripS m).isEmpty &&
    item.materials.any fun sm => containsSub (lowerS (stripS m)) (lowerS sm)

/-- No stored material string of the catalog carries edge whitespace. -/
lemma stored_materials_stripped :
    ∀ p ∈ CRAFT_DATABASE, ∀ sm ∈ p.2.materials, stripS (lowerS sm) = lowerS sm := by
  decide

/-- The source's per-item material test coincides with the claim's rule on
items whose stored materials carry no edge whitespace. -/
lemma anyMatch_eq (materials : List Str) (item : CraftItem)
    (hstored : ∀ sm ∈ item.materials, stripS (lowerS sm) = lowerS sm) :
    (((materials.filter fun m => !(stripS m).isEmpty).map fun m => stripS (lowerS m)).any
      fun av => (item.materials.map fun m => stripS (lowerS m)).any fun im => containsSub av im)
    = specMaterialMatch materials item := by
  rw [any_filter_map]
  unfold specMaterialMatch
  apply any_congr_mem
  intro m hm
  congr 1
  rw [List.any_map]
  apply any_congr_mem
  intro sm hsm
  show containsSub (stripS (lowerS m)) (stripS (lowerS sm)) =
    containsSub (lowerS (stripS m)) (lowerS sm)
  rw [hstored sm hsm, stripS_lowerS]

lemma specMatch_false_of_blank (materials : List Str)
    (hb : ∀ m ∈ materials, stripS m = []) (item : CraftItem) :
    specMaterialMatch materials item = false := by
  unfold specMaterialMatch
  rw [List.any_eq_false]
  intro m hm
  simp [hb m hm]

lemma leadsWith_append (p r : Str) : leadsWith p (p ++ r) = true := by
  induction p with
  | nil => rfl
  | cons a as ih => simp [leadsWith, ih]

lemma containsSub_of_leadsWith {p t : Str} (h : leadsWith p t = true) :
    containsSub p t = true := by
  cases t with
  | nil =>
    cases p with
    | nil => rfl
    | cons a as => simp [leadsWith] at h
  | cons c cs => simp [containsSub, h]

lemma containsSub_append_left {p t : Str} (l : Str) (h : containsSub p t = true) :
    containsSub p (l ++ t) = true := by
  induction l with
  | nil => simpa
  | cons c cs ih => simp [containsSub, ih]

lemma containsSub_self_append (p r : Str) : containsSub p (p ++ r) = true :=
  containsSub_of_leadsWith (leadsWith_append p r)

/-! ### Claim theorems -/

/-- C1.  For every sequence of ids, `estimate_time` computes
`estimated_total_minutes` by summing, over each valid id's `time_required`
text, the spec's first-digit-run rule (minutes on "minute", sixty times the
run on "hour", zero otherwise or with no digit run); and on
`["paper_airplane", "origami_crane"]` it reports 2 valid items, 0 invalid
items, 20 total minutes, and 0.33 total hours. -/
theorem estimate_time_sums_spec_rule :
    (∀ ids : List Str, ids ≠ [] →
      ∃ res, estimateCraftTime CRAFT_DATABASE ids = .ok res ∧
        res.estimated_total_minutes =
          ((ids.filterMap fun j =>
            (lookupTbl j CRAFT_DATABASE).map CraftItem.time_required).map specMinutes).sum) ∧
    (∃ res,
      estimateCraftTime CRAFT_DATABASE [str ("paper_airplane"), str ("origami_crane")] = .ok res ∧
      res.valid_items.length = 2 ∧ res.invalid_items.length = 0 ∧
      res.estimated_total_minutes = 20 ∧ res.estimated_total_hours = 33 / 100) := by
  constructor
  · intro ids h
    have he : estimateCraftTime CRAFT_DATABASE ids = .ok
        { valid_items := (estimateLoop CRAFT_DATABASE ids).1,
          invalid_items := (estimateLoop CRAFT_DATABASE ids).2.1,
          estimated_total_minutes := (estimateLoop CRAFT_DATABASE ids).2.2,
          estimated_total_hours := hoursOf (estimateLoop CRAFT_DATABASE ids).2.2 } := by
      simp only [estimateCraftTime, if_neg h]
    refine ⟨_, he, ?_⟩
    simp only [estimateLoop_eq]
    rw [List.map_filterMap]
    apply congrArg List.sum
    apply List.filterMap_congr
    intro j hj
    cases hl : lookupTbl j CRAFT_DATABASE with
    | none => simp
    | some it =>
      simp only [Option.map_some']
      rw [parseMinutes_eq_specMinutes it (lookupTbl_mem hl)]
  · refine ⟨_, rfl, ?_, ?_, ?_, ?_⟩
    · decide
    · decide
    · decide
    · show hoursOf (estimateLoop CRAFT_DATABASE _).2.2 = 33 / 100
      have h20 : (estimateLoop CRAFT_DATABASE
          [str ("paper_airplane"), str ("origami_crane")]).2.2 = 20 := by decide
      rw [h20, hoursOf_twenty]

/-- Witness for C1: the general summation rule applied to the concrete
one-element id list `["macrame_plant_hanger"]`. -/
theorem estimate_time_sums_spec_rule_witness :
    ∃ res, estimateCraftTime CRAFT_DATABASE [str ("macrame_plant_hanger")] = .ok res ∧
      res.estimated_total_minutes =
        (([str ("macrame_plant_hanger")].filterMap fun j =>
          (lookupTbl j CRAFT_DATABASE).map CraftItem.time_required).map specMinutes).sum :=
  estimate_time_sums_spec_rule.1 [str ("macrame_plant_hanger")] (by decide)

/-- C2 counterexample.  At the empty id the claim fails: `get_details("")`
returns the tagged error "Item ID cannot be empty", which does not contain
the substring "not found". -/
theorem get_details_empty_id_not_a_not_found_error :
    getCraftDetails CRAFT_DATABASE (str ("")) = .error (str ("Item ID cannot be empty")) ∧
    containsSub (str ("not found")) (str ("Item ID cannot be empty")) = false := by
  decide

/-- C2 amended.  For every non-empty id absent from the Catalog Store,
`get_details` returns a tagged error whose message contains "not found" and
the offending id verbatim; the empty id instead yields the tagged error
"Item ID cannot be empty"; and `get_details("unicorn_craft")` yields an
error containing "not found" and "unicorn_craft". -/
theorem get_details_not_found_contract :
    (∀ id : Str, lookupTbl id CRAFT_DATABASE = none → id ≠ [] →
      ∃ msg, getCraftDetails CRAFT_DATABASE id = .error msg ∧
        containsSub (str ("not found")) msg = true ∧ containsSub id msg = true) ∧
    getCraftDetails CRAFT_DATABASE (str ("")) = .error (str ("Item ID cannot be empty")) ∧
    (∃ msg, getCraftDetails CRAFT_DATABASE (str ("unicorn_craft")) = .error msg ∧
      containsSub (str ("not found")) msg = true ∧
      containsSub (str ("unicorn_craft")) msg = true) := by
  refine ⟨?_, by decide, ?_⟩
  · intro id hl hne
    have he : getCraftDetails CRAFT_DATABASE id =
        .error (str ("Craft item '") ++ id ++ str ("' not found")) := by
      simp only [getCraftDetails, if_neg hne, hl]
    refine ⟨_, he, ?_, ?_⟩
    · rw [List.append_assoc]
      apply containsSub_append_left
      apply containsSub_append_left
      decide
    · rw [List.append_assoc]
      apply containsSub_append_left
      exact containsSub_self_append id (str ("' not found"))
  · exact ⟨str ("Craft item 'unicorn_craft' not found"), by decide, by decide, by decide⟩

/-- Witness for C2 amended: the general contract applied to the concrete
absent id `"no_such_craft"`. -/
theorem get_details_not_found_contract_witness :
    ∃ msg, getCraftDetails CRAFT_DATABASE (str ("no_such_craft")) = .error msg ∧
      containsSub (str ("not found")) msg = true ∧
      containsSub (str ("no_such_craft")) msg = true :=
  get_details_not_found_contract.1 (str ("no_such_craft")) (by decide) (by decide)

/-- C3.  For every sequence of material strings, `search_by_materials`
returns, in store order, exactly the items for which some requested entry
(trimmed, discarded when blank after trimming) is a case-insensitive
substring of some stored material string; it never returns a tagged error
(its result type carries none), and an entirely-blank request (including
the empty one) yields the empty result sequence. -/
theorem search_by_materials_matching_rule : ∀ materials : List Str,
    searchCraftsByMaterials CRAFT_DATABASE materials =
      (CRAFT_DATABASE.filterMap fun p =>
        if specMaterialMatch materials p.2 then
          some { id := p.1, name := p.2.name, description := p.2.description,
                 materials_needed := p.2.materials, difficulty := p.2.difficulty,
                 time_required := p.2.time_required }
        else none) ∧
    ((∀ m ∈ materials, stripS m = []) →
      searchCraftsByMaterials CRAFT_DATABASE materials = []) := by
  intro materials
  have hmain : searchCraftsByMaterials CRAFT_DATABASE materials =
      CRAFT_DATABASE.filterMap fun p =>
        if specMaterialMatch materials p.2 then
          some { id := p.1, name := p.2.name, description := p.2.description,
                 materials_needed := p.2.materials, difficulty := p.2.difficulty,
                 time_required := p.2.time_required }
        else none := by
    by_cases hm : materials = []
    · subst hm; decide
    · simp only [searchCraftsByMaterials, if_neg hm]
      by_cases hml : ((materials.filter fun m => !(stripS m).isEmpty).map
          fun m => stripS (lowerS m)) = []
      · rw [if_pos hml]
        have hblank : ∀ m ∈ materials, stripS m = [] := by
          have hfil := List.filter_eq_nil_iff.mp (List.map_eq_nil_iff.mp hml)
          intro m hmm
          have := hfil m hmm
          revert this
          cases hs : stripS m <;> simp
        symm
        rw [List.filterMap_eq_nil_iff]
        intro p hp
        rw [specMatch_false_of_blank materials hblank p.2]
        simp
      · rw [if_neg hml]
        apply List.filterMap_congr
        intro p hp
        rw [anyMatch_eq materials p.2 (stored_materials_stripped p hp)]
  refine ⟨hmain, ?_⟩
  intro hb
  rw [hmain, List.filterMap_eq_nil_iff]
  intro p hp
  rw [specMatch_false_of_blank materials hb p.2]
  simp

/-- Witness for C3: the blank-request clause applied to the concrete
request `[" ", ""]`, and the matching-rule clause at `["paper"]`. -/
theorem search_by_materials_matching_rule_witness :
    searchCraftsByMaterials CRAFT_DATABASE [str (" "), str ("")] = [] ∧
    searchCraftsByMaterials CRAFT_DATABASE [str ("paper")] =
      (CRAFT_DATABASE.filterMap fun p =>
        if specMaterialMatch [str ("paper")] p.2 then
          some { id := p.1, name := p.2.name, description := p.2.description,
                 materials_needed := p.2.materials, difficulty := p.2.difficulty,
                 time_required := p.2.time_required }
        else none) :=
  ⟨(search_by_materials_matching_rule [str (" "), str ("")]).2 (by decide),
   (search_by_materials_matching_rule [str ("paper")]).1⟩

/-- C4 counterexample.  At the empty difficulty the claim fails: the error
message "Difficulty cannot be empty" does not enumerate the three valid
levels (it contains none of "easy", "medium", "hard"). -/
theorem search_by_difficulty_empty_error_lacks_levels :
    searchCraftsByDifficulty CRAFT_DATABASE (str ("")) =
      .error (str ("Difficulty cannot be empty")) ∧
    containsSub (str ("easy")) (str ("Difficulty cannot be empty")) = false ∧
    containsSub (str ("medium")) (str ("Difficulty cannot be empty")) = false ∧
    containsSub (str ("hard")) (str ("Difficulty cannot be empty")) = false := by
  decide

/-- C4 amended.  `search_by_difficulty` returns a tagged error exactly when
the difficulty does not case-insensitively normalize to easy, medium or
hard (which covers empty and blank inputs); for every non-empty input the
error message enumerates the three valid levels, while the empty input gets
the message "Difficulty cannot be empty"; valid difficulties yield, in
store order, exactly the case-insensitively matching records. -/
theorem search_by_difficulty_contract : ∀ d : Str,
    ((∃ msg, searchCraftsByDifficulty CRAFT_DATABASE d = .error msg) ↔
      ¬(lowerS d = str ("easy") ∨ lowerS d = str ("medium") ∨ lowerS d = str ("hard"))) ∧
    (d ≠ [] → ∀ msg, searchCraftsByDifficulty CRAFT_DATABASE d = .error msg →
      containsSub (str ("easy")) msg = true ∧ containsSub (str ("medium")) msg = true ∧
      containsSub (str ("hard")) msg = true) ∧
    ((lowerS d = str ("easy") ∨ lowerS d = str ("medium") ∨ lowerS d = str ("hard")) →
      searchCraftsByDifficulty CRAFT_DATABASE d =
        .ok (CRAFT_DATABASE.filterMap fun p =>
          if lowerS p.2.difficulty = lowerS d then
            some { id := p.1, name := p.2.name, description := p.2.description,
                   category := p.2.category, time_required := p.2.time_required }
          else none)) := by
  intro d
  have hok : (lowerS d = str ("easy") ∨ lowerS d = str ("medium") ∨ lowerS d = str ("hard")) →
      searchCraftsByDifficulty CRAFT_DATABASE d =
        .ok (CRAFT_DATABASE.filterMap fun p =>
          if lowerS p.2.difficulty = lowerS d then
            some { id := p.1, name := p.2.name, description := p.2.description,
                   category := p.2.category, time_required := p.2.time_required }
          else none) := by
    intro hv
    have hd : d ≠ [] := by
      rintro rfl
      revert hv
      decide
    simp only [searchCraftsByDifficulty, if_neg hd, if_neg (not_not_intro hv)]
  refine ⟨⟨?_, ?_⟩, ?_, hok⟩
  · rintro ⟨msg, hmsg⟩ hv
    rw [hok hv] at hmsg
    exact nomatch hmsg
  · intro hinv
    by_cases hd : d = []
    · subst hd
      exact ⟨str ("Difficulty cannot be empty"), by decide⟩
    · exact ⟨str ("Difficulty must be 'easy', 'medium', or 'hard'"),
        by simp only [searchCraftsByDifficulty, if_neg hd, if_pos hinv]⟩
  · intro hd msg hmsg
    by_cases hv : lowerS d = str ("easy") ∨ lowerS d = str ("medium") ∨ lowerS d = str ("hard")
    · rw [hok hv] at hmsg
      exact nomatch hmsg
    · rw [searchCraftsByDifficulty, if_neg hd, if_pos hv] at hmsg
      have hm : msg = str ("Difficulty must be 'easy', 'medium', or 'hard'") :=
        (Except.error.injEq _ _).mp hmsg.symm
      subst hm
      exact ⟨by decide, by decide, by decide⟩

/-- Witness for C4 amended: the enumeration clause applied to the concrete
invalid difficulty "impossible". -/
theorem search_by_difficulty_contract_witness :
    containsSub (str ("easy")) (str ("Difficulty must be 'easy', 'medium', or 'hard'")) = true ∧
    containsSub (str ("medium")) (str ("Difficulty must be 'easy', 'medium', or 'hard'")) = true ∧
    containsSub (str ("hard")) (str ("Difficulty must be 'easy', 'medium', or 'hard'")) = true :=
  (search_by_difficulty_contract (str ("impossible"))).2.1 (by decide) _ (by decide)

/-- C5 counterexample.  The blank (whitespace-only, non-empty) category " "
does not yield a tagged error: the code only errors on the empty string,
and " " matches no stored category, so the result is the empty list. -/
theorem search_by_category_blank_not_error :
    searchCraftsByCategory CRAFT_DATABASE (str (" ")) = .ok [] := by
  decide

/-- C5 amended.  `search_by_category` returns a tagged error exactly for
the empty string; every non-empty category (blank ones included) yields,
in store iteration order, exactly the items whose category field equals
the argument case-insensitively, the empty matching set giving the empty
sequence rather than an error. -/
theorem search_by_category_contract : ∀ c : Str,
    (c = [] → searchCraftsByCategory CRAFT_DATABASE c =
      .error (str ("Category cannot be empty"))) ∧
    (c ≠ [] → searchCraftsByCategory CRAFT_DATABASE c =
      .ok (CRAFT_DATABASE.filterMap fun p =>
        if lowerS p.2.category = lowerS c then
          some { id := p.1, name := p.2.name, description := p.2.description,
                 difficulty := p.2.difficulty, time_required := p.2.time_required }
        else none)) := by
  intro c
  constructor
  · rintro rfl
    decide
  · intro h
    simp only [searchCraftsByCategory, if_neg h]

/-- Witness for C5 amended: the non-empty clause applied to the concrete
blank category " ". -/
theorem search_by_category_contract_witness :
    searchCraftsByCategory CRAFT_DATABASE (str (" ")) =
      .ok (CRAFT_DATABASE.filterMap fun p =>
        if lowerS p.2.category = lowerS (str (" ")) then
          some { id := p.1, name := p.2.name, description := p.2.description,
                 difficulty := p.2.difficulty, time_required := p.2.time_required }
        else none) :=
  (search_by_category_contract (str (" "))).2 (by decide)

/-- C6.  `estimate_time([])` is a tagged error, while every non-empty id
sequence made of ids absent from the Catalog Store yields the normal
result with no valid items, all the ids as invalid items in order, and
zero minute and hour totals. -/
theorem estimate_time_empty_error_all_invalid_ok :
    estimateCraftTime CRAFT_DATABASE [] = .error (str ("Item IDs list cannot be empty")) ∧
    ∀ ids : List Str, ids ≠ [] → (∀ id ∈ ids, lookupTbl id CRAFT_DATABASE = none) →
      estimateCraftTime CRAFT_DATABASE ids =
        .ok { valid_items := [], invalid_items := ids,
              estimated_total_minutes := 0, estimated_total_hours := 0 } := by
  constructor
  · decide
  · intro ids hne hinv
    simp only [estimateCraftTime, if_neg hne, estimateLoop_eq]
    have hv : (ids.filterMap fun j => (lookupTbl j CRAFT_DATABASE).map fun it =>
        ({ id := j, name := it.name, time := it.time_required } : ValidEntry)) = [] :=
      List.filterMap_eq_nil_iff.mpr fun j hj => by rw [hinv j hj]; rfl
    have hm : (ids.filterMap fun j => (lookupTbl j CRAFT_DATABASE).map fun it =>
        parseMinutes it.time_required) = [] :=
      List.filterMap_eq_nil_iff.mpr fun j hj => by rw [hinv j hj]; rfl
    have hi : (ids.filter fun j => (lookupTbl j CRAFT_DATABASE).isNone) = ids :=
      List.filter_eq_self.mpr fun j hj => by rw [hinv j hj]; rfl
    rw [hv, hm, hi]
    simp [hoursOf_zero]

/-- Witness for C6: the all-invalid clause applied to the concrete id list
`["ghost_craft"]`. -/
theorem estimate_time_empty_error_all_invalid_ok_witness :
    estimateCraftTime CRAFT_DATABASE [str ("ghost_craft")] =
      .ok { valid_items := [], invalid_items := [str ("ghost_craft")],
            estimated_total_minutes := 0, estimated_total_hours := 0 } :=
  estimate_time_empty_error_all_invalid_ok.2 [str ("ghost_craft")] (by decide) (by decide)

/-- View of an `Except`-valued search result as its success list (empty on
error); used to state the concrete partition property. -/
def okList {α : Type} (r : Except Str (List α)) : List α :=
  match r with
  | .ok l => l
  | .error _ => []

/-- C7.  The three difficulty searches succeed, their id lists are pairwise
disjoint, their concatenation is a permutation of `list_items()`'s id list
(so the union equals its id set with no overlap), and the counts are
2, 2 and 1 for easy, medium and hard on the seed catalog. -/
theorem difficulty_partition :
    (searchCraftsByDifficulty CRAFT_DATABASE (str ("easy"))).isOk = true ∧
    (searchCraftsByDifficulty CRAFT_DATABASE (str ("medium"))).isOk = true ∧
    (searchCraftsByDifficulty CRAFT_DATABASE (str ("hard"))).isOk = true ∧
    (okList (searchCraftsByDifficulty CRAFT_DATABASE (str ("easy")))).length = 2 ∧
    (okList (searchCraftsByDifficulty CRAFT_DATABASE (str ("medium")))).length = 2 ∧
    (okList (searchCraftsByDifficulty CRAFT_DATABASE (str ("hard")))).length = 1 ∧
    ((okList (searchCraftsByDifficulty CRAFT_DATABASE (str ("easy")))).map fun r => r.id) ∩
      ((okList (searchCraftsByDifficulty CRAFT_DATABASE (str ("medium")))).map fun r => r.id)
        = [] ∧
    ((okList (searchCraftsByDifficulty CRAFT_DATABASE (str ("easy")))).map fun r => r.id) ∩
      ((okList (searchCraftsByDifficulty CRAFT_DATABASE (str ("hard")))).map fun r => r.id)
        = [] ∧
    ((okList (searchCraftsByDifficulty CRAFT_DATABASE (str ("medium")))).map fun r => r.id) ∩
      ((okList (searchCraftsByDifficulty CRAFT_DATABASE (str ("hard")))).map fun r => r.id)
        = [] ∧
    (((okList (searchCraftsByDifficulty CRAFT_DATABASE (str ("easy")))).map fun r => r.id) ++
     ((okList (searchCraftsByDifficulty CRAFT_DATABASE (str ("medium")))).map fun r => r.id) ++
     ((okList (searchCraftsByDifficulty CRAFT_DATABASE (str ("hard")))).map fun r => r.id)).Perm
      ((listCraftItems CRAFT_DATABASE).map fun r => r.id) := by
  decide

/-- C8.  For every outcome of the random choice, `get_random` on the seed
catalog returns exactly the `get_details` structure of some stored id, so
its item name lies in the catalog's name set; and on an empty Catalog Store
it returns the tagged "no items available" error. -/
theorem random_craft_membership :
    (∀ pick : Nat, ∃ id, (lookupTbl id CRAFT_DATABASE).isSome = true ∧
      getRandomCraft CRAFT_DATABASE pick = getCraftDetails CRAFT_DATABASE id ∧
      ∃ r, getRandomCraft CRAFT_DATABASE pick = .ok r ∧
        (CRAFT_DATABASE.map fun p => p.2.name).contains r.item.name = true) ∧
    (∀ (db : List (Str × CraftItem)) (pick : Nat), db = [] →
      getRandomCraft db pick = .error (str ("No crafts available in database"))) := by
  constructor
  · intro pick
    have hred : getRandomCraft CRAFT_DATABASE pick =
        getCraftDetails CRAFT_DATABASE ((CRAFT_DATABASE.map Prod.fst).getD (pick % 5) []) := by
      simp only [getRandomCraft]
      rw [if_neg (by decide)]
      rfl
    have h5 : pick % 5 = 0 ∨ pick % 5 = 1 ∨ pick % 5 = 2 ∨ pick % 5 = 3 ∨ pick % 5 = 4 := by
      omega
    rcases h5 with h | h | h | h | h <;> rw [hred, h]
    · exact ⟨str ("paper_airplane"), by decide, by decide, _, rfl, by decide⟩
    · exact ⟨str ("origami_crane"), by decide, by decide, _, rfl, by decide⟩
    · exact ⟨str ("friendship_bracelet"), by decide, by decide, _, rfl, by decide⟩
    · exact ⟨str ("painted_rock"), by decide, by decide, _, rfl, by decide⟩
    · exact ⟨str ("macrame_plant_hanger"), by decide, by decide, _, rfl, by decide⟩
  · rintro db pick rfl
    rfl

/-- Witness for C8: the empty-store clause at the concrete empty table and
pick 0. -/
theorem random_craft_membership_witness :
    getRandomCraft [] 0 = .error (str ("No crafts available in database")) :=
  random_craft_membership.2 [] 0 rfl

/-- C9.  Every one of the seven Query Engine operations is a total function
of its arguments: for every input it returns either its success payload or
a tagged error value — the embedding's counterpart of "terminates normally
with no uncaught exception escaping the operation's boundary". -/
theorem query_engine_total :
    (∀ db : List (Str × CraftItem), ∃ l, listCraftItems db = l) ∧
    (∀ (db : List (Str × CraftItem)) (id : Str),
      (∃ r, getCraftDetails db id = .ok r) ∨ ∃ e, getCraftDetails db id = .error e) ∧
    (∀ (db : List (Str × CraftItem)) (c : Str),
      (∃ l, searchCraftsByCategory db c = .ok l) ∨ ∃ e, searchCraftsByCategory db c = .error e) ∧
    (∀ (db : List (Str × CraftItem)) (d : Str),
      (∃ l, searchCraftsByDifficulty db d = .ok l) ∨
        ∃ e, searchCraftsByDifficulty db d = .error e) ∧
    (∀ (db : List (Str × CraftItem)) (pick : Nat),
      (∃ r, getRandomCraft db pick = .ok r) ∨ ∃ e, getRandomCraft db pick = .error e) ∧
    (∀ (db : List (Str × CraftItem)) (ms : List Str),
      ∃ l, searchCraftsByMaterials db ms = l) ∧
    (∀ (db : List (Str × CraftItem)) (ids : List Str),
      (∃ r, estimateCraftTime db ids = .ok r) ∨ ∃ e, estimateCraftTime db ids = .error e) := by
  refine ⟨fun db => ⟨_, rfl⟩, fun db id => ?_, fun db c => ?_, fun db d => ?_,
    fun db pick => ?_, fun db ms => ⟨_, rfl⟩, fun db ids => ?_⟩
  · cases h : getCraftDetails db id with
    | ok r => exact Or.inl ⟨r, rfl⟩
    | error e => exact Or.inr ⟨e, rfl⟩
  · cases h : searchCraftsByCategory db c with
    | ok l => exact Or.inl ⟨l, rfl⟩
    | error e => exact Or.inr ⟨e, rfl⟩
  · cases h : searchCraftsByDifficulty db d with
    | ok l => exact Or.inl ⟨l, rfl⟩
    | error e => exact Or.inr ⟨e, rfl⟩
  · cases h : getRandomCraft db pick with
    | ok r => exact Or.inl ⟨r, rfl⟩
    | error e => exact Or.inr ⟨e, rfl⟩
  · cases h : estimateCraftTime db ids with
    | ok r => exact Or.inl ⟨r, rfl⟩
    | error e => exact Or.inr ⟨e, rfl⟩

lemma filterMap_keep (l : List Str) (f : Str → Option CraftItem) :
    (l.filterMap fun j => (f j).map fun _ => j) = l.filter fun j => (f j).isSome := by
  induction l with
  | nil => rfl
  | cons a as ih => cases h : f a <;> simp [h, ih]

lemma sum_filterMap_getD (l : List Str) (g : Str → Option Nat) :
    (l.filterMap g).sum = (l.map fun a => (g a).getD 0).sum := by
  induction l with
  | nil => rfl
  | cons a as ih => cases h : g a <;> simp [h, ih]

/-- C10.  `estimate_time` does not deduplicate: a catalog id occurring k
times in the input occurs k times in `valid_items` (occurrence counts are
preserved), an absent id occurring k times occurs k times in
`invalid_items`, and the minute total is the multiplicity-weighted sum of
the parsed times over the whole input sequence. -/
theorem estimate_time_no_dedup : ∀ (ids : List Str) (id : Str), ids ≠ [] →
    ∃ res, estimateCraftTime CRAFT_DATABASE ids = .ok res ∧
      ((lookupTbl id CRAFT_DATABASE).isSome = true →
        (res.valid_items.map fun v => v.id).count id = ids.count id) ∧
      (lookupTbl id CRAFT_DATABASE = none →
        res.invalid_items.count id = ids.count id) ∧
      res.estimated_total_minutes = (ids.map fun j =>
        ((lookupTbl j CRAFT_DATABASE).map fun it => parseMinutes it.time_required).getD 0).sum := by
  intro ids id hne
  have he : estimateCraftTime CRAFT_DATABASE ids = .ok
      { valid_items := (estimateLoop CRAFT_DATABASE ids).1,
        invalid_items := (estimateLoop CRAFT_DATABASE ids).2.1,
        estimated_total_minutes := (estimateLoop CRAFT_DATABASE ids).2.2,
        estimated_total_hours := hoursOf (estimateLoop CRAFT_DATABASE ids).2.2 } := by
    simp only [estimateCraftTime, if_neg hne]
  refine ⟨_, he, ?_, ?_, ?_⟩
  · intro hsome
    show ((estimateLoop CRAFT_DATABASE ids).1.map fun v => v.id).count id = ids.count id
    rw [estimateLoop_eq]
    simp only [List.map_filterMap]
    have hk : (ids.filterMap fun j => ((lookupTbl j CRAFT_DATABASE).map fun it =>
        ({ id := j, name := it.name, time := it.time_required } : ValidEntry)).map
          fun v => v.id) =
        ids.filterMap fun j => (lookupTbl j CRAFT_DATABASE).map fun _ => j := by
      apply List.filterMap_congr
      intro j hj
      cases hl : lookupTbl j CRAFT_DATABASE <;> simp
    rw [hk, filterMap_keep]
    exact List.count_filter hsome
  · intro hnone
    show (estimateLoop CRAFT_DATABASE ids).2.1.count id = ids.count id
    rw [estimateLoop_eq]
    exact List.count_filter (by rw [hnone]; rfl)
  · show (estimateLoop CRAFT_DATABASE ids).2.2 = _
    rw [estimateLoop_eq]
    exact sum_filterMap_getD ids _

/-- Witness for C10: the duplicate id list
`["paper_airplane", "paper_airplane"]` with the catalog id itself. -/
theorem estimate_time_no_dedup_witness :
    ∃ res, estimateCraftTime CRAFT_DATABASE
        [str ("paper_airplane"), str ("paper_airplane")] = .ok res ∧
      ((lookupTbl (str ("paper_airplane")) CRAFT_DATABASE).isSome = true →
        (res.valid_items.map fun v => v.id).count (str ("paper_airplane")) =
          [str ("paper_airplane"), str ("paper_airplane")].count (str ("paper_airplane"))) ∧
      (lookupTbl (str ("paper_airplane")) CRAFT_DATABASE = none →
        res.invalid_items.count (str ("paper_airplane")) =
          [str ("paper_airplane"), str ("paper_airplane")].count (str ("paper_airplane"))) ∧
      res.estimated_total_minutes =
        ([str ("paper_airplane"), str ("paper_airplane")].map fun j =>
          ((lookupTbl j CRAFT_DATABASE).map fun it =>
            parseMinutes it.time_required).getD 0).sum :=
  estimate_time_no_dedup [str ("paper_airplane"), str ("paper_airplane")]
    (str ("paper_airplane")) (by decide)
